import Mathlib

/-
  Verification of the RoninConnector dual-transport wallet connector
  (src/src/pages/_app.tsx and the chain registry files), as a shallow
  embedding in Lean 4.  JavaScript promises are modelled by explicit
  state passing; thrown errors by Except; the browser environment
  (window.ronin, storage, RPC outcomes) by explicit parameters.
-/

deriving instance DecidableEq for Except

namespace Ronin

/-- Native currency record of a chain (name, symbol, decimals), as in the
chain registry files. -/
structure NativeCurrency where
  name : String
  symbol : String
  decimals : Nat
  deriving Repr, DecidableEq

/-- A configured chain, embedding the fields of the wagmi Chain objects the
connector actually reads: id, name, default RPC http urls, and the default
block explorer url (optional). -/
structure Chain where
  id : Nat
  name : String
  network : String
  nativeCurrency : NativeCurrency
  rpcUrlsDefaultHttp : List String
  blockExplorerDefaultUrl : Option String
  deriving Repr, DecidableEq

/-- The `ronin` mainnet chain record from the chain registry. -/
def roninChain : Chain :=
  { id := 2020
    name := "Ronin mainnet"
    network := "ronin"
    nativeCurrency := { name := "RON", symbol := "RON", decimals := 18 }
    rpcUrlsDefaultHttp := ["https://api.roninchain.com/rpc"]
    blockExplorerDefaultUrl := some "https://app.roninchain.com/" }

/-- The `saigon` testnet chain record from the chain registry. -/
def saigonChain : Chain :=
  { id := 2021
    name := "Saigon Testnet"
    network := "saigon"
    nativeCurrency := { name := "RON", symbol := "RON", decimals := 18 }
    rpcUrlsDefaultHttp := ["https://saigon-testnet.roninchain.com/rpc"]
    blockExplorerDefaultUrl := some "https://saigon-explorer.roninchain.com/" }

/-- The ADD_ETH_CHAIN_METHOD constant of the source. -/
def ADD_ETH_CHAIN_METHOD : String := "wallet_addEthereumChain"

/-- ASCII lowercasing of one character: the patterns of the source are
ASCII, so this is how a JavaScript case-insensitive regex canonicalizes
the characters that can matter to a match. -/
def asciiLower (c : Char) : Char :=
  if 64 < c.toNat && c.toNat < 91 then Char.ofNat (c.toNat + 32) else c

/-- Whether pat is a leading segment of s. -/
def leadsWith : List Char → List Char → Bool
  | _, [] => true
  | [], _ :: _ => false
  | c :: cs, p :: ps => c == p && leadsWith cs ps

/-- Whether pat occurs as a contiguous segment of s. -/
def containsSeg (pat : List Char) : List Char → Bool
  | [] => leadsWith [] pat
  | c :: rest => leadsWith (c :: rest) pat || containsSeg pat rest

/-- Case-insensitive substring test, modelling an unanchored JavaScript
regex test such as the /user rejected/i of the source: true iff `pat`
occurs in `s` ignoring ASCII case. -/
def containsCI (s pat : String) : Bool :=
  containsSeg (pat.toList.map asciiLower) (s.toList.map asciiLower)

/-- viem numberToHex: 0x-prefixed lowercase hexadecimal rendering. -/
def numberToHex (n : Nat) : String :=
  "0x" ++ String.mk (Nat.toDigits 16 n)

/-- Errors a connector method can reject with.  `userRejected` embeds the
viem UserRejectedRequestError wrapping the original error (whose message it
carries); `switchChainError` embeds viem SwitchChainError wrapping the
original error; `other` is an arbitrary transport error propagated
unchanged, identified by its message. -/
inductive ConnErr where
  | userRejected (message : String)
  | switchChainError (message : String)
  | other (message : String)
  deriving Repr, DecidableEq

/-- The error thrown by switchChain when the requested id is not among the
configured chains: SwitchChainError wrapping Error with this message.  The
spec names this case ChainNotFound. -/
def chainNotFoundError : ConnErr :=
  ConnErr.switchChainError "chain not found on connector."

/-- Parameters of a wallet_addEthereumChain request, as built by
switchChain from the target chain record. -/
structure AddChainParams where
  chainId : String
  blockExplorerUrls : List String
  chainName : String
  nativeCurrency : NativeCurrency
  rpcUrls : List String
  deriving Repr, DecidableEq

/-- An RPC request issued to the transport provider by switchChain. -/
inductive RpcCall where
  | addEthereumChain (params : AddChainParams)
  | switchEthereumChain (chainIdHex : String)
  deriving Repr, DecidableEq

/-- The wallet_addEthereumChain parameter object switchChain builds from a
chain record (explorer url defaulted to the empty string when absent). -/
def addChainParamsOf (chain : Chain) : AddChainParams :=
  { chainId := numberToHex chain.id
    blockExplorerUrls := [(chain.blockExplorerDefaultUrl).getD ""]
    chainName := chain.name
    nativeCurrency := chain.nativeCurrency
    rpcUrls := chain.rpcUrlsDefaultHttp }

/-- Environment a switchChain call runs against: the chain ids and methods
of the live relay session namespace, and the outcome (success, or a thrown
error identified by its message) of the two RPC requests the call may
issue. -/
structure SwitchEnv where
  namespaceChains : List Nat
  namespaceMethods : List String
  addChainResult : Except String Unit
  switchResult : Except String Unit
  deriving Repr, DecidableEq

/-- The catch clause of switchChain: an error whose message matches
/user rejected request/i becomes UserRejectedRequestError, every other
error is wrapped as SwitchChainError. -/
def normalizeSwitchErr (msg : String) : ConnErr :=
  if containsCI msg "user rejected request" then ConnErr.userRejected msg
  else ConnErr.switchChainError msg

/-- Result of a switchChain call: the outcome, the list of RPC requests
issued to the provider in order, and the persisted requestedChains record
after the call. -/
structure SwitchOut where
  result : Except ConnErr Chain
  rpcTrace : List RpcCall
  requestedChains : List Nat
  deriving Repr, DecidableEq

/-- RoninConnector.switchChain: looks the id up in the configured chains
(throwing SwitchChainError "chain not found on connector." before any RPC
when absent); otherwise, when the id is not yet in the session namespace
and the namespace methods include wallet_addEthereumChain, issues an
add-chain request and appends the id to the persisted requestedChains;
then issues a switch-chain request unconditionally; errors are normalized
by the catch clause. -/
def switchChain (chains : List Chain) (env : SwitchEnv)
    (requested : List Nat) (chainId : Nat) : SwitchOut :=
  match chains.find? (fun c => c.id == chainId) with
  | none => { result := Except.error chainNotFoundError, rpcTrace := [], requestedChains := requested }
  | some chain =>
    let isChainApproved := env.namespaceChains.contains chainId
    if !isChainApproved && env.namespaceMethods.contains ADD_ETH_CHAIN_METHOD then
      match env.addChainResult with
      | Except.error msg =>
        { result := Except.error (normalizeSwitchErr msg)
          rpcTrace := [RpcCall.addEthereumChain (addChainParamsOf chain)]
          requestedChains := requested }
      | Except.ok _ =>
        let requested2 := requested ++ [chainId]
        match env.switchResult with
        | Except.error msg =>
          { result := Except.error (normalizeSwitchErr msg)
            rpcTrace := [RpcCall.addEthereumChain (addChainParamsOf chain),
                         RpcCall.switchEthereumChain (numberToHex chainId)]
            requestedChains := requested2 }
        | Except.ok _ =>
          { result := Except.ok chain
            rpcTrace := [RpcCall.addEthereumChain (addChainParamsOf chain),
                         RpcCall.switchEthereumChain (numberToHex chainId)]
            requestedChains := requested2 }
    else
      match env.switchResult with
      | Except.error msg =>
        { result := Except.error (normalizeSwitchErr msg)
          rpcTrace := [RpcCall.switchEthereumChain (numberToHex chainId)]
          requestedChains := requested }
      | Except.ok _ =>
        { result := Except.ok chain
          rpcTrace := [RpcCall.switchEthereumChain (numberToHex chainId)]
          requestedChains := requested }

/-- The catch clause of RoninConnector.connect: a body error whose message
matches /user rejected/i is re-thrown as UserRejectedRequestError wrapping
the original error; every other error is re-thrown unchanged. -/
def connectErrorHandler {α : Type} (body : Except String α) : Except ConnErr α :=
  match body with
  | Except.ok a => Except.ok a
  | Except.error msg =>
    if containsCI msg "user rejected" then Except.error (ConnErr.userRejected msg)
    else Except.error (ConnErr.other msg)

/-- Result of getProvider taken on the relay branch (window.ronin absent):
the outcome, and the RPC trace plus requestedChains record coming from the
switchChain call it may make. -/
structure GetProviderOut where
  result : Except ConnErr Unit
  rpcTrace : List RpcCall
  requestedChains : List Nat
  deriving Repr, DecidableEq

/-- The relay branch of RoninConnector.getProvider with an optional chainId
argument: after ensuring the relay provider exists, the source runs
`if (chainId) await this.switchChain(chainId)` - a JavaScript truthiness
test, so the switch happens exactly when a chainId was supplied and is not
zero; a switchChain rejection propagates out of getProvider. -/
def getProviderRelay (chains : List Chain) (env : SwitchEnv)
    (requested : List Nat) (chainIdArg : Option Nat) : GetProviderOut :=
  match chainIdArg with
  | none => { result := Except.ok (), rpcTrace := [], requestedChains := requested }
  | some cid =>
    if cid != 0 then
      let out := switchChain chains env requested cid
      { result := out.result.map (fun _ => ())
        rpcTrace := out.rpcTrace
        requestedChains := out.requestedChains }
    else
      { result := Except.ok (), rpcTrace := [], requestedChains := requested }

/-- State of the private provider-initialization machinery: the memoized
initProviderPromise (identified by a numeric promise id when present), the
number of times the initProvider body has been entered, and the number of
EthereumProvider.init constructions performed. -/
structure InitState where
  initProviderPromise : Option Nat := none
  initProviderRuns : Nat := 0
  providerConstructions : Nat := 0
  deriving Repr, DecidableEq

/-- How many EthereumProvider.init constructions one run of the private
initProvider body performs: the body destructures
`const [defaultChain, ...optionalChains] = this.chains.map(id)` and guards
the construction with `if (defaultChain)` - a JavaScript truthiness test
on the first mapped id, so a construction happens exactly when a first
configured chain exists and its id is non-zero. -/
def initConstructs : List Chain → Nat
  | [] => 0
  | c :: _ => if c.id != 0 then 1 else 0

/-- RoninConnector.createProvider (private): when no initialization promise
is stored and a window exists, starts initProvider once and stores its
promise; otherwise returns the stored promise (possibly none).  The
initProvider body performs the constructions counted by initConstructs
(its defaultChain truthiness guard). -/
def createProvider (windowDefined : Bool) (chains : List Chain)
    (s : InitState) : Option Nat × InitState :=
  if s.initProviderPromise.isNone && windowDefined then
    let s2 : InitState :=
      { initProviderPromise := some s.initProviderRuns
        initProviderRuns := s.initProviderRuns + 1
        providerConstructions := s.providerConstructions + initConstructs chains }
    (some s.initProviderRuns, s2)
  else
    (s.initProviderPromise, s)

/-- A configured chain whose id is 0: a legal SupportedChain value on
which the destructured defaultChain is falsy in JavaScript, so the
initProvider body runs without performing any construction. -/
def zeroIdChain : Chain :=
  { id := 0
    name := "Zero chain"
    network := "zero"
    nativeCurrency := { name := "ZERO", symbol := "ZERO", decimals := 18 }
    rpcUrlsDefaultHttp := ["https://rpc.invalid/rpc"]
    blockExplorerDefaultUrl := none }

/-- A sequence of n successive createProvider calls in a browser runtime
(window defined), all made before the stored initialization completes,
returning the promise each call produced and the final state. -/
def createProviderCalls (chains : List Chain) : Nat → InitState → List (Option Nat) × InitState
  | 0, s => ([], s)
  | n + 1, s =>
    let (r, s2) := createProvider true chains s
    let (rs, s3) := createProviderCalls chains n s2
    (r :: rs, s3)

/-- The RoninConnector constructor: isExtension is initialized to false
when no window exists, else to the presence of window.ronin; when
isExtension is false the constructor itself calls createProvider. -/
def constructorRun (windowDefined roninPresent : Bool)
    (chains : List Chain) : InitState :=
  let isExtension := windowDefined && roninPresent
  if !isExtension then (createProvider windowDefined chains {}).2 else ({} : InitState)

/-- Result of a disconnect call: the outcome (an unrecognized transport
error is rethrown, identified by its message), whether the shim flag is in
storage afterwards, the persisted requestedChains afterwards, and whether
the relay and extension listener teardowns ran. -/
structure DisconnectOut where
  result : Except String Unit
  storageShim : Bool
  requestedChains : List Nat
  relayListenersTornDown : Bool
  extListenersTornDown : Bool
  deriving Repr, DecidableEq

/-- RoninConnector.disconnect, after its initial getProvider resolved.
Inputs: the transport at call time (isExtension), the shimDisconnect
option, whether the shim flag is in storage, the persisted requestedChains,
whether a relay provider object exists (removeListeners is a no-op without
one), and the outcome of the relay transport disconnect (unused on the
extension branch).  The extension branch removes the extension listeners,
emits, and removes the shim flag when the option is set; the relay branch
calls the transport disconnect and swallows an error matching
/No matching key/i, rethrowing any other; the finally clause always runs
removeListeners and resets requestedChains to the empty list. -/
def disconnect (isExtension shimDisconnectOpt storageShim : Bool)
    (_requested : List Nat) (hasRelayProvider : Bool)
    (relayDisconnectResult : Except String Unit) : DisconnectOut :=
  if isExtension then
    { result := Except.ok ()
      storageShim := if shimDisconnectOpt then false else storageShim
      requestedChains := []
      relayListenersTornDown := hasRelayProvider
      extListenersTornDown := true }
  else
    match relayDisconnectResult with
    | Except.ok _ =>
      { result := Except.ok ()
        storageShim := storageShim
        requestedChains := []
        relayListenersTornDown := hasRelayProvider
        extListenersTornDown := false }
    | Except.error msg =>
      { result :=
          if containsCI msg "No matching key" then Except.ok ()
          else Except.error msg
        storageShim := storageShim
        requestedChains := []
        relayListenersTornDown := hasRelayProvider
        extListenersTornDown := false }

/-- Environment of an isAuthorized call: the shimDisconnect option, the
cached isExtension flag, whether the shim flag is persisted in storage,
whether the storage read itself succeeds (a throwing read is caught by the
try wrapper), and the outcome of getAccount (a checksummed address string,
or a thrown error). -/
structure AuthEnv where
  shimDisconnectOpt : Bool
  isExtension : Bool
  flagPersisted : Bool
  storageReadOk : Bool
  account : Except String String
  deriving Repr, DecidableEq

/-- Account part of isAuthorized: `const [account] = await this.getAccount()`
destructures the first character of the returned address string, and
`if (!account) return false` makes an absent first character (empty string)
yield false; a thrown getAccount error is caught by the try wrapper of
isAuthorized and yields false. -/
def authAccount : Except String String → Bool
  | Except.error _ => false
  | Except.ok account =>
    match account.toList.head? with
    | none => false
    | some _ => true

/-- RoninConnector.isAuthorized: inside a try wrapper, returns false when
shimDisconnect is set, the transport is the extension, and the storage read
finds no shim flag (short-circuit: the storage read only happens in that
configuration, and when it throws the catch yields false); otherwise the
result comes from the getAccount destructuring, with every thrown error
caught and turned into false. -/
def isAuthorized (env : AuthEnv) : Bool :=
  if env.shimDisconnectOpt && env.isExtension then
    if env.storageReadOk then
      if !env.flagPersisted then false
      else authAccount env.account
    else false
  else authAccount env.account

/-- Payload carried in the data field of an emitted message event: either
the bare pairing uri string, or a structured record wrapping the uri with a
mobile flag (the shape the spec describes). -/
inductive MessageData where
  | bare (uri : String)
  | structured (uri : String) (mobile : Bool)
  deriving Repr, DecidableEq

/-- Observable effects of the onDisplayUri handler: the message events it
emits (event type paired with data payload) and the url the current page is
navigated to, when any. -/
structure DisplayUriOut where
  emitted : List (String × MessageData)
  navigation : Option String
  deriving Repr, DecidableEq

/-- RoninConnector.onDisplayUri: emits one message event of type
display_uri whose data is the bare uri string, then, when the module-level
mobile flag is set and the uri is truthy (non-empty), opens the
wallet.roninchain.com auth-connect deep link on the current page. -/
def onDisplayUri (mobileRuntime : Bool) (uri : String) : DisplayUriOut :=
  { emitted := [("display_uri", MessageData.bare uri)]
    navigation :=
      if mobileRuntime && uri != "" then
        some ("https://wallet.roninchain.com/auth-connect?uri=" ++ uri)
      else none }

/-- Environment events for the transport-detection model: the browser
injects a fresh extension object (whose provider has no `on` method yet),
or removes the extension; and the connector performs a getProvider call. -/
inductive WEvent where
  | injectExtension
  | removeExtension
  | callGetProvider
  deriving Repr, DecidableEq

/-- Transport-detection state: window.ronin (none when absent, else
whether the `on` method of its provider has been set), and the private
isExtension flag of the connector. -/
structure WState where
  ronin : Option Bool
  isExtension : Bool
  deriving Repr, DecidableEq

/-- One step of the transport-detection model.  getProvider follows the
source: when window.ronin is present with `on` already set it returns the
injected provider at once; when present without `on` it patches `on` in
place and sets isExtension to true; when absent it sets isExtension to
false and falls through to the relay provider. -/
def wStep (s : WState) : WEvent → WState
  | WEvent.injectExtension => { s with ronin := some false }
  | WEvent.removeExtension => { s with ronin := none }
  | WEvent.callGetProvider =>
    match s.ronin with
    | some true => s
    | some false => { ronin := some true, isExtension := true }
    | none => { s with isExtension := false }

/-- The provider object a getProvider call returns in a given state: true
means the injected window.ronin.provider, false the relay provider. -/
def getProviderReturnsInjected (s : WState) : Bool :=
  s.ronin.isSome

/-- Initial transport-detection state built by the constructor in a
browser: isExtension is Boolean(window.ronin). -/
def wInit (ronin0 : Option Bool) : WState :=
  { ronin := ronin0, isExtension := ronin0.isSome }

/-- Run of the transport-detection model over a sequence of events. -/
def wRun (s : WState) (events : List WEvent) : WState :=
  events.foldl wStep s

/-- Helper: when the requested id is the id of no configured chain, the
find at the top of switchChain misses, so the method throws the
chain-not-found SwitchChainError with an empty RPC trace and an untouched
requestedChains record. -/
lemma switchChain_of_not_configured (chains : List Chain) (env : SwitchEnv)
    (requested : List Nat) (chainId : Nat)
    (h : ∀ c ∈ chains, c.id ≠ chainId) :
    switchChain chains env requested chainId =
      { result := Except.error chainNotFoundError
        rpcTrace := []
        requestedChains := requested } := by
  have hf : chains.find? (fun c => c.id == chainId) = none := by
    rw [List.find?_eq_none]
    intro c hc
    simpa using h c hc
  simp [switchChain, hf]

/-- Helper: once an initialization promise is stored, every further
createProvider call returns that same promise and leaves the state
unchanged. -/
lemma createProviderCalls_stable (chains : List Chain) (k : Nat)
    (s : InitState) (i : Nat) (h : s.initProviderPromise = some i) :
    createProviderCalls chains k s = (List.replicate k (some i), s) := by
  induction k with
  | zero => simp [createProviderCalls]
  | succ n ih =>
    have hcall : createProvider true chains s = (some i, s) := by
      simp [createProvider, h]
    simp [createProviderCalls, hcall, ih, List.replicate_succ]

/-- Invariant of the transport-detection model: a patched injected
provider (`on` set) is only observed with isExtension already true. -/
def wInv (s : WState) : Prop := s.ronin = some true → s.isExtension = true

/-- Helper: the constructor establishes the invariant. -/
lemma wInv_init (ronin0 : Option Bool) : wInv (wInit ronin0) := by
  intro h
  simp [wInit] at h ⊢
  simp [h]

/-- Helper: every environment event and every getProvider call preserves
the invariant. -/
lemma wInv_step (s : WState) (e : WEvent) (h : wInv s) : wInv (wStep s e) := by
  cases e with
  | injectExtension => intro hr; simp [wStep] at hr
  | removeExtension => intro hr; simp [wStep] at hr
  | callGetProvider =>
    intro hr
    rcases hs : s.ronin with _ | b
    · simp [wStep, hs] at hr
    · cases b
      · simp [wStep, hs]
      · simpa [wStep, hs] using h hs

/-- Helper: the invariant holds after any run. -/
lemma wInv_run (s : WState) (tr : List WEvent) (h : wInv s) : wInv (wRun s tr) := by
  induction tr generalizing s with
  | nil => exact h
  | cons e rest ih =>
    have : wRun s (e :: rest) = wRun (wStep s e) rest := by
      simp [wRun, List.foldl]
    rw [this]
    exact ih (wStep s e) (wInv_step s e h)

/-- C1 counterexample: on a pairing-URI event with uri wc:abc the handler
emits the message event with data the BARE uri string, which is a
different payload from the structured record carrying the uri and a mobile
flag which the claim describes, for either value of the flag. -/
theorem C1_counterexample :
    (onDisplayUri false "wc:abc").emitted
        = [("display_uri", MessageData.bare "wc:abc")] ∧
    MessageData.bare "wc:abc" ≠ MessageData.structured "wc:abc" false ∧
    MessageData.bare "wc:abc" ≠ MessageData.structured "wc:abc" true := by
  refine ⟨rfl, ?_, ?_⟩ <;> intro h <;> cases h

/-- C1 (amended): for every pairing-URI event carrying uri u, the handler
emits exactly one message event, of type display_uri with data the bare
uri string u; when the runtime is not mobile no navigation occurs, and
when the runtime is mobile and u is non-empty the current page navigates
to the wallet.roninchain.com auth-connect deep link carrying u. -/
theorem C1_display_uri_event (mobileRuntime : Bool) (u : String) :
    (onDisplayUri mobileRuntime u).emitted.length = 1 ∧
    (onDisplayUri mobileRuntime u).emitted
        = [("display_uri", MessageData.bare u)] ∧
    (mobileRuntime = false → (onDisplayUri mobileRuntime u).navigation = none) ∧
    (mobileRuntime = true → u ≠ "" →
      (onDisplayUri mobileRuntime u).navigation
        = some ("https://wallet.roninchain.com/auth-connect?uri=" ++ u)) := by
  refine ⟨rfl, rfl, ?_, ?_⟩
  · intro h
    simp [onDisplayUri, h]
  · intro h hu
    simp [onDisplayUri, h, hu]

/-- C1 witness: on a mobile runtime with uri wc:abc the deep-link
navigation occurs. -/
theorem C1_display_uri_event_witness :
    ("wc:abc" : String) ≠ "" ∧
    (onDisplayUri true "wc:abc").navigation
      = some ("https://wallet.roninchain.com/auth-connect?uri=" ++ "wc:abc") :=
  ⟨by decide, (C1_display_uri_event true "wc:abc").2.2.2 rfl (by decide)⟩

/-- C2 counterexample: inside switchChain, an error whose message is
exactly user rejected (so it contains the claimed substring) is wrapped as
SwitchChainError, not re-raised as UserRejected, because the switchChain
catch matches the longer pattern user rejected request. -/
theorem C2_counterexample :
    (switchChain [roninChain]
        { namespaceChains := [], namespaceMethods := [],
          addChainResult := Except.ok (),
          switchResult := Except.error "user rejected" }
        [] 2020).result
      = Except.error (ConnErr.switchChainError "user rejected") ∧
    ConnErr.switchChainError "user rejected"
      ≠ ConnErr.userRejected "user rejected" := by
  refine ⟨rfl, ?_⟩
  intro h
  cases h

/-- C2 (amended): connect re-raises any error whose message contains user
rejected (case-insensitively) as UserRejected carrying the original
message, and propagates every other error unchanged; the switchChain catch
turns only messages containing user rejected request into UserRejected and
wraps every other error (including one containing merely user rejected) as
SwitchChainError; a switchChain call on a configured chain whose switch
RPC throws rejects with exactly that normalized error. -/
theorem C2_error_normalization (msg : String) :
    (containsCI msg "user rejected" = true →
      connectErrorHandler (Except.error msg : Except String Unit)
        = Except.error (ConnErr.userRejected msg)) ∧
    (containsCI msg "user rejected" = false →
      connectErrorHandler (Except.error msg : Except String Unit)
        = Except.error (ConnErr.other msg)) ∧
    (containsCI msg "user rejected request" = true →
      normalizeSwitchErr msg = ConnErr.userRejected msg) ∧
    (containsCI msg "user rejected request" = false →
      normalizeSwitchErr msg = ConnErr.switchChainError msg) ∧
    (switchChain [roninChain]
        { namespaceChains := [], namespaceMethods := [],
          addChainResult := Except.ok (), switchResult := Except.error msg }
        [] 2020).result
      = Except.error (normalizeSwitchErr msg) := by
  refine ⟨?_, ?_, ?_, ?_, rfl⟩ <;> intro h <;>
    simp [connectErrorHandler, normalizeSwitchErr, h]

/-- C2 witness: a message containing user rejected request is normalized
to UserRejected by both methods. -/
theorem C2_error_normalization_witness :
    connectErrorHandler (Except.error "User rejected request" : Except String Unit)
      = Except.error (ConnErr.userRejected "User rejected request") ∧
    normalizeSwitchErr "User rejected request"
      = ConnErr.userRejected "User rejected request" :=
  ⟨(C2_error_normalization "User rejected request").1 (by decide),
   (C2_error_normalization "User rejected request").2.2.1 (by decide)⟩

/-- C3: for every chain id that is the id of no configured chain,
switchChain rejects with the chain-not-found SwitchChainError before any
RPC request is issued, leaving the requestedChains record untouched. -/
theorem C3_switchChain_chain_not_found (chains : List Chain) (env : SwitchEnv)
    (requested : List Nat) (chainId : Nat)
    (h : ∀ c ∈ chains, c.id ≠ chainId) :
    (switchChain chains env requested chainId).result
      = Except.error chainNotFoundError ∧
    (switchChain chains env requested chainId).rpcTrace = [] ∧
    (switchChain chains env requested chainId).requestedChains = requested := by
  rw [switchChain_of_not_configured chains env requested chainId h]
  exact ⟨rfl, rfl, rfl⟩

/-- C3 witness: id 999 is configured on neither ronin nor saigon, so the
switch rejects with no RPC issued. -/
theorem C3_switchChain_chain_not_found_witness :
    (switchChain [roninChain, saigonChain]
        { namespaceChains := [2020], namespaceMethods := [ADD_ETH_CHAIN_METHOD],
          addChainResult := Except.ok (), switchResult := Except.ok () }
        [2020] 999).result
      = Except.error chainNotFoundError ∧
    (switchChain [roninChain, saigonChain]
        { namespaceChains := [2020], namespaceMethods := [ADD_ETH_CHAIN_METHOD],
          addChainResult := Except.ok (), switchResult := Except.ok () }
        [2020] 999).rpcTrace = [] ∧
    (switchChain [roninChain, saigonChain]
        { namespaceChains := [2020], namespaceMethods := [ADD_ETH_CHAIN_METHOD],
          addChainResult := Except.ok (), switchResult := Except.ok () }
        [2020] 999).requestedChains = [2020] :=
  C3_switchChain_chain_not_found [roninChain, saigonChain]
    { namespaceChains := [2020], namespaceMethods := [ADD_ETH_CHAIN_METHOD],
      addChainResult := Except.ok (), switchResult := Except.ok () }
    [2020] 999 (by decide)

/-- C4 counterexample: on the non-empty chain list whose single chain has
id 0, two pending createProvider calls in a browser result in zero
EthereumProvider.init constructions, not the claimed exactly one: the
defaultChain truthiness guard of initProvider is falsy at id 0. -/
theorem C4_counterexample :
    ([zeroIdChain] : List Chain) ≠ [] ∧
    (createProviderCalls [zeroIdChain] 2 {}).2.initProviderRuns = 1 ∧
    (createProviderCalls [zeroIdChain] 2 {}).2.providerConstructions = 0 ∧
    (createProviderCalls [zeroIdChain] 2 {}).2.providerConstructions ≠ 1 := by
  refine ⟨by decide, rfl, rfl, by decide⟩

/-- C4 (amended): in a browser runtime, any positive number of calls to
the memoized createProvider made from a fresh connector state results in
exactly one initProvider run, with every call returning the same stored
initialization promise and no second initialization ever started; the
number of underlying EthereumProvider.init constructions is that of a
single initProvider run - at most one, and exactly one whenever a first
configured chain exists and its id is non-zero (the defaultChain
truthiness guard). -/
theorem C4_memoized_initialization (n : Nat) (chains : List Chain) :
    (createProviderCalls chains (n + 1) {}).1
      = List.replicate (n + 1) (some 0) ∧
    (createProviderCalls chains (n + 1) {}).2.initProviderRuns = 1 ∧
    (createProviderCalls chains (n + 1) {}).2.providerConstructions
      = initConstructs chains ∧
    initConstructs chains ≤ 1 ∧
    (∀ c rest, chains = c :: rest → c.id ≠ 0 →
      (createProviderCalls chains (n + 1) {}).2.providerConstructions = 1) := by
  have hfirst : createProvider true chains ({} : InitState) =
      (some 0, { initProviderPromise := some 0, initProviderRuns := 1,
                 providerConstructions := initConstructs chains }) := by
    simp [createProvider]
  have hrest := createProviderCalls_stable chains n
      { initProviderPromise := some 0, initProviderRuns := 1,
        providerConstructions := initConstructs chains } 0 rfl
  refine ⟨?_, ?_, ?_, ?_, ?_⟩
  · simp [createProviderCalls, hfirst, hrest, List.replicate_succ]
  · simp [createProviderCalls, hfirst, hrest]
  · simp [createProviderCalls, hfirst, hrest]
  · cases chains with
    | nil => simp [initConstructs]
    | cons c rest =>
      simp only [initConstructs]
      split <;> simp
  · intro c rest hc hcid
    subst hc
    have hb : (c.id != 0) = true := by simpa using hcid
    have hone : initConstructs (c :: rest) = 1 := by simp [initConstructs, hb]
    rw [hone] at hfirst hrest
    simp [createProviderCalls, hfirst, hrest]

/-- C4 witness: three concurrent calls on the ronin chain list share one
initProvider run, one construction and one promise. -/
theorem C4_memoized_initialization_witness :
    (createProviderCalls [roninChain] 3 {}).1 = [some 0, some 0, some 0] ∧
    (createProviderCalls [roninChain] 3 {}).2.initProviderRuns = 1 ∧
    (createProviderCalls [roninChain] 3 {}).2.providerConstructions = 1 := by
  have h := C4_memoized_initialization 2 [roninChain]
  exact ⟨by rw [h.1]; rfl, h.2.1, h.2.2.2.2 roninChain [] rfl (by decide)⟩

/-- C5 counterexample: a successful relay-transport disconnect leaves a
previously-set shim-disconnect flag in storage, against the claim that
after every successful disconnect the flag is absent. -/
theorem C5_counterexample :
    (disconnect false true true [2020] true (Except.ok ())).result
      = Except.ok () ∧
    (disconnect false true true [2020] true (Except.ok ())).storageShim
      = true :=
  ⟨rfl, rfl⟩

/-- C5 (amended): every disconnect call, on either transport and whether
the transport disconnect succeeds or throws, runs the relay listener
teardown and resets the persisted requestedChains record to the empty list
as a guaranteed final step; on the Injected transport the call succeeds,
tears the extension listeners down, and removes the shim flag when the
shimDisconnect option is set, while on the Relay transport the shim flag
in storage is left untouched. -/
theorem C5_disconnect_cleanup (isExtension shimOpt storageShim : Bool)
    (requested : List Nat) (hasRelayProvider : Bool)
    (res : Except String Unit) :
    (disconnect isExtension shimOpt storageShim requested hasRelayProvider
      res).requestedChains = [] ∧
    (disconnect isExtension shimOpt storageShim requested hasRelayProvider
      res).relayListenersTornDown = hasRelayProvider ∧
    (isExtension = true →
      (disconnect isExtension shimOpt storageShim requested hasRelayProvider
        res).extListenersTornDown = true ∧
      (disconnect isExtension shimOpt storageShim requested hasRelayProvider
        res).result = Except.ok ()) ∧
    (isExtension = true → shimOpt = true →
      (disconnect isExtension shimOpt storageShim requested hasRelayProvider
        res).storageShim = false) ∧
    (isExtension = false →
      (disconnect isExtension shimOpt storageShim requested hasRelayProvider
        res).storageShim = storageShim) := by
  cases isExtension <;> cases shimOpt <;> rcases res with u | msg <;>
    simp [disconnect]

/-- C5 witness: an extension disconnect with the shim option set clears
the flag and resets the requested chains. -/
theorem C5_disconnect_cleanup_witness :
    (disconnect true true true [2020, 2021] false
      (Except.ok ())).requestedChains = [] ∧
    (disconnect true true true [2020, 2021] false
      (Except.ok ())).storageShim = false := by
  have h := C5_disconnect_cleanup true true true [2020, 2021] false
    (Except.ok ())
  exact ⟨h.1, h.2.2.2.1 rfl rfl⟩

/-- C6: when the relay transport disconnect throws, an error whose message
matches No matching key (case-insensitively) is absorbed completely and
disconnect resolves, while any other error is rethrown unchanged; in both
cases the listener removal and the requested-chains reset have run. -/
theorem C6_no_matching_key_absorbed (shimOpt storageShim : Bool)
    (requested : List Nat) (msg : String) :
    (containsCI msg "No matching key" = true →
      (disconnect false shimOpt storageShim requested true
        (Except.error msg)).result = Except.ok ()) ∧
    (containsCI msg "No matching key" = false →
      (disconnect false shimOpt storageShim requested true
        (Except.error msg)).result = Except.error msg) ∧
    (disconnect false shimOpt storageShim requested true
      (Except.error msg)).relayListenersTornDown = true ∧
    (disconnect false shimOpt storageShim requested true
      (Except.error msg)).requestedChains = [] := by
  refine ⟨?_, ?_, rfl, rfl⟩ <;> intro h <;> simp [disconnect, h]

/-- C6 witness: a No matching key error is absorbed, an unrelated error is
rethrown, and cleanup runs either way. -/
theorem C6_no_matching_key_absorbed_witness :
    (disconnect false true true [2020] true
      (Except.error "No matching key. session topic not found")).result
      = Except.ok () ∧
    (disconnect false true true [2020] true
      (Except.error "connection reset")).result
      = Except.error "connection reset" ∧
    (disconnect false true true [2020] true
      (Except.error "connection reset")).requestedChains = [] :=
  ⟨(C6_no_matching_key_absorbed true true [2020]
      "No matching key. session topic not found").1 (by decide),
   (C6_no_matching_key_absorbed true true [2020] "connection reset").2.1
      (by decide),
   (C6_no_matching_key_absorbed true true [2020] "connection reset").2.2.2⟩

/-- C7: after any interleaving of extension injections, extension removals
and getProvider calls, a getProvider call returns the injected provider
exactly when window.ronin is present at that moment, leaves window.ronin
presence unchanged (the in-place `on` patch aside), and leaves the
isExtension flag equal to that same momentary presence - the transport
kind a following operation branches on is re-detected, not a stale cached
value. -/
theorem C7_transport_redetection (ronin0 : Option Bool) (tr : List WEvent) :
    (wStep (wRun (wInit ronin0) tr) WEvent.callGetProvider).isExtension
      = (wRun (wInit ronin0) tr).ronin.isSome ∧
    getProviderReturnsInjected (wRun (wInit ronin0) tr)
      = (wRun (wInit ronin0) tr).ronin.isSome ∧
    (wStep (wRun (wInit ronin0) tr) WEvent.callGetProvider).ronin.isSome
      = (wRun (wInit ronin0) tr).ronin.isSome := by
  have hinv := wInv_run (wInit ronin0) tr (wInv_init ronin0)
  rcases hr : (wRun (wInit ronin0) tr).ronin with _ | b
  · simp [wStep, hr, getProviderReturnsInjected]
  · cases b
    · simp [wStep, hr, getProviderReturnsInjected]
    · have hext := hinv hr
      simp [wStep, hr, getProviderReturnsInjected, hext]

/-- C8 counterexample: constructing the connector in a browser without the
injected extension starts a Relay Provider construction at once, before
any getProvider or connect call. -/
theorem C8_counterexample :
    (constructorRun true false [roninChain]).providerConstructions = 1 ∧
    (constructorRun true false [roninChain]).providerConstructions ≠ 0 :=
  ⟨rfl, by decide⟩

/-- C8 (amended): the constructor itself starts a Relay Provider
initialization exactly when a window exists and the injected wallet object
is absent, and that run performs an EthereumProvider.init construction
exactly when the defaultChain truthiness guard passes (a first configured
chain exists with non-zero id); with the extension present or no window,
construction of the connector creates no provider. -/
theorem C8_constructor_eager_init (windowDefined roninPresent : Bool)
    (chains : List Chain) :
    (constructorRun windowDefined roninPresent chains).providerConstructions
      = (if windowDefined && !roninPresent then initConstructs chains else 0) ∧
    (constructorRun windowDefined roninPresent chains).initProviderRuns
      = (if windowDefined && !roninPresent then 1 else 0) := by
  cases windowDefined <;> cases roninPresent <;>
    simp [constructorRun, createProvider]

/-- C9: isAuthorized is total (it resolves to a boolean, absorbing every
thrown error); it resolves to false when shimDisconnect is enabled, the
transport is Injected and no shim flag is persisted, and whenever the
execution resolves no account (a thrown storage read or account lookup, or
an empty account string); when the shim check passes and an account
resolves, it resolves to true. -/
theorem C9_isAuthorized_never_raises (env : AuthEnv) :
    (isAuthorized env = true ∨ isAuthorized env = false) ∧
    (env.shimDisconnectOpt = true → env.isExtension = true →
      env.storageReadOk = true → env.flagPersisted = false →
      isAuthorized env = false) ∧
    (∀ e, env.account = Except.error e → isAuthorized env = false) ∧
    (env.account = Except.ok "" → isAuthorized env = false) ∧
    (∀ s, env.account = Except.ok s → s ≠ "" →
      ((env.shimDisconnectOpt && env.isExtension) = true →
        env.storageReadOk = true ∧ env.flagPersisted = true) →
      isAuthorized env = true) := by
  obtain ⟨so, ie, fp, ro, acc⟩ := env
  refine ⟨?_, ?_, ?_, ?_, ?_⟩
  · cases h : isAuthorized ⟨so, ie, fp, ro, acc⟩ with
    | false => exact Or.inr rfl
    | true => exact Or.inl rfl
  · intro h1 h2 h3 h4
    subst h1; subst h2; subst h3; subst h4
    simp [isAuthorized]
  · intro e he
    subst he
    cases so <;> cases ie <;> cases ro <;> cases fp <;>
      simp [isAuthorized, authAccount]
  · intro he
    subst he
    cases so <;> cases ie <;> cases ro <;> cases fp <;>
      simp [isAuthorized, authAccount]
  · intro s hs hne himp
    subst hs
    have hAcc : authAccount (Except.ok s) = true := by
      obtain ⟨data⟩ := s
      cases data with
      | nil => cases hne rfl
      | cons c cs => rfl
    rcases hsi : (so && ie) with _ | _
    · simp [isAuthorized, hsi, hAcc]
    · obtain ⟨hro, hfp⟩ := himp hsi
      subst hro; subst hfp
      simp [isAuthorized, hsi, hAcc]

/-- C9 witness: with shim enabled on the extension and no persisted flag
the probe is false even though the account lookup would fail anyway, and
with shim disabled and a resolving account it is true. -/
theorem C9_isAuthorized_never_raises_witness :
    isAuthorized { shimDisconnectOpt := true, isExtension := true,
                   flagPersisted := false, storageReadOk := true,
                   account := Except.error "getProvider failed" } = false ∧
    isAuthorized { shimDisconnectOpt := false, isExtension := false,
                   flagPersisted := false, storageReadOk := true,
                   account := Except.ok "0x1234" } = true :=
  ⟨(C9_isAuthorized_never_raises
      { shimDisconnectOpt := true, isExtension := true,
        flagPersisted := false, storageReadOk := true,
        account := Except.error "getProvider failed" }).2.1 rfl rfl rfl rfl,
   (C9_isAuthorized_never_raises
      { shimDisconnectOpt := false, isExtension := false,
        flagPersisted := false, storageReadOk := true,
        account := Except.ok "0x1234" }).2.2.2.2 "0x1234" rfl (by decide)
      (by decide)⟩

/-- C10 counterexample: the truthiness test of the source skips the switch
when the supplied chainId is zero: on a chain list where 0 is configured
on no chain, getProvider with chainId 0 succeeds with no RPC issued, while
the claimed switchChain invocation would have rejected with the
chain-not-found error. -/
theorem C10_counterexample :
    (getProviderRelay [roninChain]
        { namespaceChains := [], namespaceMethods := [],
          addChainResult := Except.ok (), switchResult := Except.ok () }
        [] (some 0)).result = Except.ok () ∧
    (getProviderRelay [roninChain]
        { namespaceChains := [], namespaceMethods := [],
          addChainResult := Except.ok (), switchResult := Except.ok () }
        [] (some 0)).rpcTrace = [] ∧
    (switchChain [roninChain]
        { namespaceChains := [], namespaceMethods := [],
          addChainResult := Except.ok (), switchResult := Except.ok () }
        [] 0).result = Except.error chainNotFoundError :=
  ⟨rfl, rfl, rfl⟩

/-- C10 (amended): for every getProvider call on the relay branch that
supplies a non-zero chainId, the connector invokes switchChain on that id
before returning: the RPC requests of the acquisition are exactly those of
the switch, every switchChain rejection propagates out of getProvider, and
in particular an unconfigured id makes the acquisition reject with the
chain-not-found error having issued no RPC. -/
theorem C10_getProvider_switches (chains : List Chain) (env : SwitchEnv)
    (requested : List Nat) (chainId : Nat) (h : chainId ≠ 0) :
    (getProviderRelay chains env requested (some chainId)).rpcTrace
      = (switchChain chains env requested chainId).rpcTrace ∧
    (getProviderRelay chains env requested (some chainId)).requestedChains
      = (switchChain chains env requested chainId).requestedChains ∧
    (∀ e, (switchChain chains env requested chainId).result = Except.error e →
      (getProviderRelay chains env requested (some chainId)).result
        = Except.error e) ∧
    ((∀ c ∈ chains, c.id ≠ chainId) →
      (getProviderRelay chains env requested (some chainId)).result
        = Except.error chainNotFoundError ∧
      (getProviderRelay chains env requested (some chainId)).rpcTrace = []) := by
  have hb : (chainId != 0) = true := by simpa using h
  refine ⟨?_, ?_, ?_, ?_⟩
  · simp [getProviderRelay, hb]
  · simp [getProviderRelay, hb]
  · intro e he
    simp [getProviderRelay, hb, he, Except.map]
  · intro hnc
    have hsw := switchChain_of_not_configured chains env requested chainId hnc
    refine ⟨?_, ?_⟩ <;> simp [getProviderRelay, hb, hsw, Except.map]

/-- C10 witness: acquiring a provider for the unconfigured id 2021 on the
ronin-only chain list rejects with the chain-not-found error. -/
theorem C10_getProvider_switches_witness :
    (getProviderRelay [roninChain]
        { namespaceChains := [], namespaceMethods := [],
          addChainResult := Except.ok (), switchResult := Except.ok () }
        [] (some 2021)).result = Except.error chainNotFoundError :=
  ((C10_getProvider_switches [roninChain]
      { namespaceChains := [], namespaceMethods := [],
        addChainResult := Except.ok (), switchResult := Except.ok () }
      [] 2021 (by decide)).2.2.2 (by decide)).1

end Ronin
